import Mathlib

/-!
Shallow embedding of the delta-synchronization and offline-reconciliation
subsystem of the mechanic-manual API, together with proofs of its testable
properties. The definitions mirror, table by table and route by route, the
code in src/routes/sync.routes.js and the module routes (download, admin
update). SQL tables are lists of rows; timestamps are naturals (milliseconds
since the epoch, so that the JS expression new Date(0) is the natural 0);
nullable columns and optional request fields are Option; a rejected request
is the error branch of Except.
-/

namespace MechanicSync

/-- Row of the modules table, with the columns the sync subsystem reads or
writes (SELECT m.*, the COALESCE update list, version, updated_at,
is_active, is_downloadable). -/
structure Module where
  id : Nat
  uuid : String
  categoryId : Option Nat
  title : String
  description : Option String
  content : String
  thumbnailUrl : Option String
  isDownloadable : Bool
  priority : Int
  isActive : Bool
  version : Nat
  updatedAt : Nat
  deriving Repr, DecidableEq

/-- Row of the meca_aids table (the columns the sync subsystem reads). -/
structure MecaAid where
  id : Nat
  uuid : String
  categoryId : Option Nat
  title : String
  isActive : Bool
  version : Nat
  updatedAt : Nat
  deriving Repr, DecidableEq

/-- Row of the meca_aid_steps table. -/
structure MecaAidStep where
  id : Nat
  mecaAidId : Nat
  stepNumber : Nat
  title : String
  deriving Repr, DecidableEq

/-- Row of module_categories / meca_aid_categories. -/
structure Category where
  id : Nat
  name : String
  isActive : Bool
  sortOrder : Nat
  deriving Repr, DecidableEq

/-- Row of app_settings. -/
structure AppSetting where
  settingKey : String
  settingValue : String
  deriving Repr, DecidableEq

/-- Row of downloaded_modules: the Download Ledger, unique on
(user_id, module_id, device_id). -/
structure DownloadRecord where
  userId : Nat
  moduleId : Nat
  deviceId : String
  downloadedVersion : Nat
  downloadedAt : Nat
  deriving Repr, DecidableEq

/-- Row of sync_logs: the SyncCheckpoint store. device_id is nullable and the
GET sync/full insert stores req.deviceId verbatim, which is null when the
x-device-id header is absent. -/
structure SyncLog where
  userId : Nat
  deviceId : Option String
  syncType : String
  itemsSynced : Nat
  lastSyncAt : Nat
  deriving Repr, DecidableEq

/-- Row of user_activities: the ActivityEvent store (append-only). -/
structure ActivityEvent where
  userId : Nat
  deviceId : Option String
  activityType : String
  referenceId : Option Nat
  referenceType : Option String
  metadata : Option String
  durationSeconds : Option Nat
  ipAddress : String
  createdAt : Nat
  deriving Repr, DecidableEq

/-- One element of the activities array POSTed to sync/activities. Every
field of the client JSON object is optional; activity_type is the NOT NULL
column whose absence makes the row insert fail. -/
structure ActivityIn where
  activityType : Option String
  deviceId : Option String
  referenceId : Option Nat
  referenceType : Option String
  metadata : Option String
  durationSeconds : Option Nat
  timestamp : Option Nat
  deriving Repr, DecidableEq

/-- The database state the sync subsystem touches. -/
structure Db where
  modules : List Module
  mecaAids : List MecaAid
  mecaAidSteps : List MecaAidStep
  moduleCategories : List Category
  mecaAidCategories : List Category
  appSettings : List AppSetting
  downloadedModules : List DownloadRecord
  userActivities : List ActivityEvent
  syncLogs : List SyncLog
  deriving Repr, DecidableEq

/-- An empty database, used for concrete evaluations. -/
def emptyDb : Db :=
  { modules := [], mecaAids := [], mecaAidSteps := [], moduleCategories := []
    mecaAidCategories := [], appSettings := [], downloadedModules := []
    userActivities := [], syncLogs := [] }

/-! ### Activity Reconciler: POST sync/activities -/

/-- An event the per-row INSERT accepts: activity_type is present. A missing
activityType binds undefined into the NOT NULL activity_type column, the
INSERT throws, and the loop's per-event catch skips the row. -/
def wellFormed (a : ActivityIn) : Bool :=
  a.activityType.isSome

/-- One INSERT INTO user_activities for one element of the batch: returns the
extended store on success, none when the insert fails (missing
activity_type). Mirrors the VALUES list of the route. -/
def insertActivity (events : List ActivityEvent) (userId : Nat)
    (reqDeviceId : Option String) (ip : String) (now : Nat) (a : ActivityIn) :
    Option (List ActivityEvent) :=
  match a.activityType with
  | none => none
  | some t =>
    some (events ++ [{ userId := userId
                       deviceId := reqDeviceId.or a.deviceId
                       activityType := t
                       referenceId := a.referenceId
                       referenceType := a.referenceType
                       metadata := a.metadata
                       durationSeconds := a.durationSeconds
                       ipAddress := ip
                       createdAt := a.timestamp.getD now }])

/-- Loop body of the for-of over activities: try the insert, count it on
success, swallow the failure otherwise. -/
def ingestStep (userId : Nat) (reqDeviceId : Option String) (ip : String)
    (now : Nat) (acc : List ActivityEvent × Nat) (a : ActivityIn) :
    List ActivityEvent × Nat :=
  match insertActivity acc.1 userId reqDeviceId ip now a with
  | some events => (events, acc.2 + 1)
  | none => acc

/-- POST sync/activities. The body is none when the activities field is
missing or not an array (the route then answers 400); an empty array passes
that check (an empty JS array is truthy) and the loop runs zero times. On
success the route reports the synced count and the batch length. -/
def ingestBatch (db : Db) (userId : Nat) (reqDeviceId : Option String)
    (ip : String) (now : Nat) (body : Option (List ActivityIn)) :
    Except String (Db × Nat × Nat) :=
  match body with
  | none => .error "Activities array required"
  | some activities =>
    let r := activities.foldl (ingestStep userId reqDeviceId ip now)
      (db.userActivities, 0)
    .ok ({ db with userActivities := r.1 }, r.2, activities.length)

/-! ### Sync Orchestrator: GET sync/full, sync/check, sync/downloads,
sync/status, and the module routes it depends on -/

/-- The route computes sinceDate as new Date(lastSync) when the query
parameter is present and new Date(0) otherwise. -/
def sinceDate (lastSync : Option Nat) : Nat :=
  lastSync.getD 0

/-- WHERE m.is_active = true AND m.updated_at > ? over the modules table. -/
def moduleDelta (ms : List Module) (lastSync : Option Nat) : List Module :=
  ms.filter (fun m => m.isActive && decide (sinceDate lastSync < m.updatedAt))

/-- WHERE ma.is_active = true AND ma.updated_at > ? over the meca_aids
table. -/
def mecaAidDelta (as : List MecaAid) (lastSync : Option Nat) : List MecaAid :=
  as.filter (fun a => a.isActive && decide (sinceDate lastSync < a.updatedAt))

/-- ORDER BY meca_aid_id, step_number as a boolean comparison on step rows. -/
def stepLE (s t : MecaAidStep) : Bool :=
  decide (s.mecaAidId < t.mecaAidId) ||
    (s.mecaAidId == t.mecaAidId && decide (s.stepNumber ≤ t.stepNumber))

/-- SELECT * FROM meca_aid_steps WHERE meca_aid_id IN (ids) ORDER BY
meca_aid_id, step_number: the single bulk fetch over the parent id set. -/
def fetchStepsBulk (steps : List MecaAidStep) (ids : List Nat) :
    List MecaAidStep :=
  (steps.filter (fun s => ids.contains s.mecaAidId)).mergeSort stepLE

/-- LEFT JOIN on a categories table: the joined name column, null when the
item has no category or the id matches no row. -/
def categoryName (cats : List Category) (cid : Option Nat) : Option String :=
  cid.bind (fun c => (cats.find? (fun k => k.id == c)).map (fun k => k.name))

/-- SELECT * FROM a categories table WHERE is_active = true ORDER BY
sort_order. -/
def categoriesSorted (cs : List Category) : List Category :=
  (cs.filter (fun c => c.isActive)).mergeSort
    (fun a b => decide (a.sortOrder ≤ b.sortOrder))

/-- The settingsObj loop: a JS object assignment per app_settings row, a
later row with the same key overwriting the earlier value in place. -/
def settingsObject (settings : List AppSetting) : List (String × String) :=
  settings.foldl
    (fun acc s =>
      if acc.any (fun kv => kv.1 == s.settingKey) then
        acc.map (fun kv =>
          if kv.1 == s.settingKey then (kv.1, s.settingValue) else kv)
      else acc ++ [(s.settingKey, s.settingValue)])
    []

/-- One module of the full-sync payload: the modules row with its joined
category_name. -/
structure ModuleRow where
  module : Module
  categoryName : Option String
  deriving Repr, DecidableEq

/-- One meca aid of the full-sync payload: the meca_aids row with its joined
category_name and its attached steps array. -/
structure MecaAidRow where
  mecaAid : MecaAid
  categoryName : Option String
  steps : List MecaAidStep
  deriving Repr, DecidableEq

/-- The data object GET sync/full responds with. -/
structure FullSyncPayload where
  modules : List ModuleRow
  mecaAids : List MecaAidRow
  moduleCategories : List Category
  mecaAidCategories : List Category
  settings : List (String × String)
  syncedAt : Nat
  nextSyncRecommended : Nat
  deriving Repr, DecidableEq

/-- One SQL statement issued by GET sync/full, recorded in order so that the
number and shape of the queries is part of the model. -/
inductive Query where
  | modulesChanged (since : Nat)
  | mecaAidsChanged (since : Nat)
  | stepsBulk (parentIds : List Nat)
  | moduleCategoriesAll
  | mecaAidCategoriesAll
  | settingsAll
  | syncLogInsert
  deriving Repr, DecidableEq

/-- Recognizer for the bulk step fetch in a query trace. -/
def isStepsBulkQuery : Query → Bool
  | .stepsBulk _ => true
  | .modulesChanged _ => false
  | .mecaAidsChanged _ => false
  | .moduleCategoriesAll => false
  | .mecaAidCategoriesAll => false
  | .settingsAll => false
  | .syncLogInsert => false

/-- GET sync/full: the delta payload, the new database state (the appended
sync_logs checkpoint is the only write), and the trace of queries issued.
The steps query only runs when the meca-aid delta is non-empty; every parent
then receives the bulk rows filtered to its own id. The checkpoint insert
stores req.deviceId verbatim (null when the header is absent) and counts
modules plus meca aids. -/
def computeDeltaFull (db : Db) (userId : Nat) (deviceId : Option String)
    (lastSync : Option Nat) (now : Nat) :
    FullSyncPayload × Db × List Query :=
  let since := sinceDate lastSync
  let modules := moduleDelta db.modules lastSync
  let mecaAids := mecaAidDelta db.mecaAids lastSync
  let stepQueries :=
    if mecaAids.length > 0 then
      [Query.stepsBulk (mecaAids.map (fun ma => ma.id))]
    else []
  let bulkSteps :=
    if mecaAids.length > 0 then
      fetchStepsBulk db.mecaAidSteps (mecaAids.map (fun ma => ma.id))
    else []
  let mecaAidRows := mecaAids.map (fun ma =>
    { mecaAid := ma
      categoryName := categoryName db.mecaAidCategories ma.categoryId
      steps := bulkSteps.filter (fun s => s.mecaAidId == ma.id) })
  let payload : FullSyncPayload :=
    { modules := modules.map (fun m =>
        { module := m
          categoryName := categoryName db.moduleCategories m.categoryId })
      mecaAids := mecaAidRows
      moduleCategories := categoriesSorted db.moduleCategories
      mecaAidCategories := categoriesSorted db.mecaAidCategories
      settings := settingsObject db.appSettings
      syncedAt := now
      nextSyncRecommended := now + 60 * 60 * 1000 }
  let newLog : SyncLog :=
    { userId := userId
      deviceId := deviceId
      syncType := "full"
      itemsSynced := modules.length + mecaAids.length
      lastSyncAt := now }
  let trace :=
    [Query.modulesChanged since, Query.mecaAidsChanged since] ++ stepQueries ++
      [Query.moduleCategoriesAll, Query.mecaAidCategoriesAll,
       Query.settingsAll, Query.syncLogInsert]
  (payload, { db with syncLogs := db.syncLogs ++ [newLog] }, trace)

/-- The data object GET sync/check responds with: the counts are absent on
the early initial-sync return. -/
structure CheckResult where
  hasUpdates : Bool
  moduleCount : Option Nat
  mecaAidCount : Option Nat
  deriving Repr, DecidableEq

/-- GET sync/check: with no lastSync it returns hasUpdates immediately;
otherwise it runs the two COUNT queries, whose WHERE clauses are the delta
predicates of GET sync/full, and reports whether either count is positive. -/
def checkForUpdates (db : Db) (lastSync : Option Nat) : CheckResult :=
  match lastSync with
  | none =>
    { hasUpdates := true, moduleCount := none, mecaAidCount := none }
  | some t =>
    let mCount := (moduleDelta db.modules (some t)).length
    let aCount := (mecaAidDelta db.mecaAids (some t)).length
    { hasUpdates := decide (mCount > 0) || decide (aCount > 0)
      moduleCount := some mCount
      mecaAidCount := some aCount }

/-- The expression req.deviceId || "unknown" used as the ledger key. -/
def ledgerKey (deviceId : Option String) : String :=
  deviceId.getD "unknown"

/-- One row GET sync/downloads responds with: the downloaded_modules row,
the joined module columns, and the CASE-computed needs_update flag. -/
structure DownloadStatusRow where
  record : DownloadRecord
  uuid : String
  title : String
  currentVersion : Nat
  needsUpdate : Bool
  deriving Repr, DecidableEq

/-- GET sync/downloads: downloaded_modules rows of the caller's
(user, device) key, inner-joined against modules on module_id (module ids
are the primary key, so the join is a lookup), with needs_update computed in
the query as downloaded_version < version. -/
def getDownloadStatus (db : Db) (userId : Nat) (deviceId : Option String) :
    List DownloadStatusRow :=
  (db.downloadedModules.filter (fun d =>
      d.userId == userId && d.deviceId == ledgerKey deviceId)).filterMap
    (fun d => (db.modules.find? (fun m => m.id == d.moduleId)).map (fun m =>
      { record := d
        uuid := m.uuid
        title := m.title
        currentVersion := m.version
        needsUpdate := decide (d.downloadedVersion < m.version) }))

/-- The unique key of downloaded_modules: (user_id, module_id, device_id). -/
def sameDownloadKey (d : DownloadRecord) (userId moduleId : Nat)
    (deviceId : String) : Bool :=
  d.userId == userId && d.moduleId == moduleId && d.deviceId == deviceId

/-- INSERT INTO downloaded_modules ... ON DUPLICATE KEY UPDATE
downloaded_version = VALUES(downloaded_version), downloaded_at = NOW():
an unconditional upsert on the composite key. -/
def upsertDownload (ds : List DownloadRecord) (r : DownloadRecord) :
    List DownloadRecord :=
  if ds.any (fun d => sameDownloadKey d r.userId r.moduleId r.deviceId) then
    ds.map (fun d =>
      if sameDownloadKey d r.userId r.moduleId r.deviceId then
        { d with downloadedVersion := r.downloadedVersion
                 downloadedAt := r.downloadedAt }
      else d)
  else ds ++ [r]

/-- POST modules/:uuid/download: finds the active downloadable module by
uuid, upserts its current version into the Download Ledger under the
caller's (user, module, device || "unknown") key, and appends the
module_download activity row. -/
def downloadModule (db : Db) (uuid : String) (userId : Nat)
    (deviceId : Option String) (ip : String) (now : Nat) :
    Except String Db :=
  match db.modules.find? (fun m =>
      m.uuid == uuid && m.isActive && m.isDownloadable) with
  | none => .error "Module not found or not downloadable"
  | some m =>
    .ok { db with
      downloadedModules := upsertDownload db.downloadedModules
        { userId := userId
          moduleId := m.id
          deviceId := ledgerKey deviceId
          downloadedVersion := m.version
          downloadedAt := now }
      userActivities := db.userActivities ++
        [{ userId := userId
           deviceId := deviceId
           activityType := "module_download"
           referenceId := some m.id
           referenceType := some "module"
           metadata := none
           durationSeconds := none
           ipAddress := ip
           createdAt := now }] }

/-- The optional request-body fields of PUT modules/:uuid. -/
structure ModuleUpdate where
  title : Option String
  description : Option String
  content : Option String
  categoryId : Option Nat
  thumbnailUrl : Option String
  isDownloadable : Option Bool
  priority : Option Int
  isActive : Option Bool
  deriving Repr, DecidableEq

/-- The SET list of PUT modules/:uuid applied to one row: every field goes
through COALESCE(?, column) and version = version + 1 unconditionally.
Modelled from the spec: the modules table schema is not under src/ and its
updated_at column is maintained by the database on every row update (spec
section 3: updatedAt is set on every mutation); the UPDATE statement itself
only bumps version. -/
def applyModuleUpdate (u : ModuleUpdate) (now : Nat) (m : Module) : Module :=
  { m with
    title := u.title.getD m.title
    description := u.description.or m.description
    content := u.content.getD m.content
    categoryId := u.categoryId.or m.categoryId
    thumbnailUrl := u.thumbnailUrl.or m.thumbnailUrl
    isDownloadable := u.isDownloadable.getD m.isDownloadable
    priority := u.priority.getD m.priority
    isActive := u.isActive.getD m.isActive
    version := m.version + 1
    updatedAt := now }

/-- UPDATE modules SET ... WHERE uuid = ?: every row matching the uuid is
rewritten, the rest are untouched. -/
def updateModule (ms : List Module) (uuid : String) (u : ModuleUpdate)
    (now : Nat) : List Module :=
  ms.map (fun m => if m.uuid == uuid then applyModuleUpdate u now m else m)

/-- PUT modules/:uuid on the database state: only the modules table
changes. -/
def updateModuleDb (db : Db) (uuid : String) (u : ModuleUpdate) (now : Nat) :
    Db :=
  { db with modules := updateModule db.modules uuid u now }

/-- The optional request-body fields of PUT mecaAids/:uuid that touch the
columns of the modeled meca_aids projection (title, category_id,
is_active). The route also COALESCE-updates the descriptive text columns —
problem_description, symptoms, causes, solutions, tools_required,
difficulty_level, estimated_time — which carry no sync-relevant state and
are outside the projection. -/
structure MecaAidUpdate where
  title : Option String
  categoryId : Option Nat
  isActive : Option Bool
  deriving Repr, DecidableEq

/-- The SET list of PUT mecaAids/:uuid applied to one row. Unlike the
modules route, its SET list contains no version bump, so version is left
exactly as stored. Modelled from the spec: as for modules, the meca_aids
table schema is not under src/ and its updated_at column is maintained by
the database on a row update; no theorem relies on meca aid updatedAt. -/
def applyMecaAidUpdate (u : MecaAidUpdate) (now : Nat) (a : MecaAid) :
    MecaAid :=
  { a with
    title := u.title.getD a.title
    categoryId := u.categoryId.or a.categoryId
    isActive := u.isActive.getD a.isActive
    updatedAt := now }

/-- UPDATE meca_aids SET ... WHERE uuid = ?: every row matching the uuid is
rewritten, the rest are untouched. -/
def updateMecaAid (as : List MecaAid) (uuid : String) (u : MecaAidUpdate)
    (now : Nat) : List MecaAid :=
  as.map (fun a => if a.uuid == uuid then applyMecaAidUpdate u now a else a)

/-- A meca aid update request with every field absent. -/
def emptyMecaAidUpdate : MecaAidUpdate :=
  { title := none, categoryId := none, isActive := none }

/-- ORDER BY last_sync_at DESC LIMIT 1 over a list of checkpoint rows. -/
def latestSyncLog (logs : List SyncLog) : Option SyncLog :=
  logs.foldl
    (fun acc l =>
      match acc with
      | none => some l
      | some b => if b.lastSyncAt < l.lastSyncAt then some l else some b)
    none

/-- GET sync/status: the most recent sync_logs row whose user_id matches the
caller and whose device_id column equals the string
req.deviceId || "unknown" (a null device_id column never equals it). -/
def getStatus (db : Db) (userId : Nat) (deviceId : Option String) :
    Option SyncLog :=
  latestSyncLog (db.syncLogs.filter (fun l =>
    l.userId == userId && l.deviceId == some (ledgerKey deviceId)))

/-- Sample catalog used to instantiate the sync theorems. -/
def mSample : Module :=
  { id := 1, uuid := "M", categoryId := none, title := "Engine"
    description := none, content := "c", thumbnailUrl := none
    isDownloadable := true, priority := 0, isActive := true, version := 3
    updatedAt := 50 }

/-- Sample meca aid used to instantiate the sync theorems. -/
def aSample : MecaAid :=
  { id := 1, uuid := "A", categoryId := none, title := "Starter"
    isActive := true, version := 1, updatedAt := 60 }

/-- Sample database used to instantiate the sync theorems. -/
def dbSample : Db :=
  { emptyDb with modules := [mSample], mecaAids := [aSample] }

/-- A module update request with every field absent: the admin PUT still
bumps the version. -/
def emptyModuleUpdate : ModuleUpdate :=
  { title := none, description := none, content := none, categoryId := none
    thumbnailUrl := none, isDownloadable := none, priority := none
    isActive := none }

/-- State after the sample module is downloaded at version 3 by user 7 on
device dev. -/
def dbScenarioDownloaded : Db :=
  (downloadModule dbSample "M" 7 (some "dev") "198.51.100.7" 100).toOption.getD
    dbSample

/-- State after the admin then updates the module, raising its version
to 4, with no new download. -/
def dbScenarioUpdated : Db :=
  updateModuleDb dbScenarioDownloaded "M" emptyModuleUpdate 200

/-- The download-status row the scenario is expected to produce. -/
def rowScenario : DownloadStatusRow :=
  { record := { userId := 7, moduleId := 1, deviceId := "dev"
                downloadedVersion := 3, downloadedAt := 100 }
    uuid := "M", title := "Engine", currentVersion := 4, needsUpdate := true }

/-- Sample step rows attached to the sample meca aid. -/
def stepsSample : List MecaAidStep :=
  [{ id := 11, mecaAidId := 1, stepNumber := 2, title := "check" },
   { id := 10, mecaAidId := 1, stepNumber := 1, title := "open" }]

/-- Sample database with a meca aid and its two steps. -/
def dbStepsSample : Db :=
  { emptyDb with mecaAids := [aSample], mecaAidSteps := stepsSample }

/-- The ingestion loop counts exactly the well-formed events and appends
exactly that many rows, whatever store and counter it starts from. -/
theorem ingestLoop_spec (userId : Nat) (reqDeviceId : Option String)
    (ip : String) (now : Nat) (acts : List ActivityIn) :
    ∀ (st : List ActivityEvent) (c : Nat),
      (acts.foldl (ingestStep userId reqDeviceId ip now) (st, c)).2 =
        c + acts.countP wellFormed ∧
      (acts.foldl (ingestStep userId reqDeviceId ip now) (st, c)).1.length =
        st.length + acts.countP wellFormed := by
  induction acts with
  | nil => intro st c; simp
  | cons a l ih =>
    intro st c
    rcases ha : a.activityType with _ | t
    · have hw : wellFormed a = false := by
        simp [wellFormed, ha]
      have hstep : ingestStep userId reqDeviceId ip now (st, c) a = (st, c) := by
        simp [ingestStep, insertActivity, ha]
      simp only [List.foldl_cons, hstep, List.countP_cons, hw]
      have := ih st c
      simpa using this
    · have hw : wellFormed a = true := by
        simp [wellFormed, ha]
      have hstep :
          ingestStep userId reqDeviceId ip now (st, c) a =
            (st ++ [{ userId := userId
                      deviceId := reqDeviceId.or a.deviceId
                      activityType := t
                      referenceId := a.referenceId
                      referenceType := a.referenceType
                      metadata := a.metadata
                      durationSeconds := a.durationSeconds
                      ipAddress := ip
                      createdAt := a.timestamp.getD now }], c + 1) := by
        simp [ingestStep, insertActivity, ha]
      have h2 := ih (st ++ [{ userId := userId
                              deviceId := reqDeviceId.or a.deviceId
                              activityType := t
                              referenceId := a.referenceId
                              referenceType := a.referenceType
                              metadata := a.metadata
                              durationSeconds := a.durationSeconds
                              ipAddress := ip
                              createdAt := a.timestamp.getD now }]) (c + 1)
      simp only [List.foldl_cons, hstep]
      rw [List.countP_cons_of_pos _ _ hw]
      constructor
      · rw [h2.1]; omega
      · rw [h2.2]
        simp only [List.length_append, List.length_cons, List.length_nil]
        omega

/-- Counting a predicate and its negation over a list covers the list. -/
theorem countP_add_countP_not (p : α → Bool) (l : List α) :
    l.countP p + l.countP (fun a => !p a) = l.length := by
  induction l with
  | nil => simp
  | cons a l ih =>
    simp only [List.countP_cons, List.length_cons]
    cases h : p a <;> simp [h] <;> omega

/-- Claim C2: a batch of N events of which exactly K are malformed (missing
activityType) is not surfaced as an error; the route reports
acceptedCount = N - K, exactly N - K ActivityEvent rows are appended, and no
other store is touched — a bad individual event never aborts the rest of the
batch. -/
theorem ingestBatch_partial_success (db : Db) (userId : Nat)
    (reqDeviceId : Option String) (ip : String) (now : Nat)
    (acts : List ActivityIn) :
    ∃ db2 : Db,
      ingestBatch db userId reqDeviceId ip now (some acts) =
        .ok (db2, acts.length - acts.countP (fun a => !wellFormed a),
             acts.length) ∧
      db2.userActivities.length =
        db.userActivities.length +
          (acts.length - acts.countP (fun a => !wellFormed a)) ∧
      db2.modules = db.modules ∧ db2.mecaAids = db.mecaAids ∧
      db2.mecaAidSteps = db.mecaAidSteps ∧
      db2.downloadedModules = db.downloadedModules ∧
      db2.syncLogs = db.syncLogs := by
  have hloop := ingestLoop_spec userId reqDeviceId ip now acts
    db.userActivities 0
  have hcount := countP_add_countP_not wellFormed acts
  have hK : acts.length - acts.countP (fun a => !wellFormed a) =
      acts.countP wellFormed := by omega
  refine ⟨{ db with userActivities :=
      (acts.foldl (ingestStep userId reqDeviceId ip now)
        (db.userActivities, 0)).1 }, ?_, ?_, rfl, rfl, rfl, rfl, rfl⟩
  · simp only [ingestBatch, hK]
    rw [hloop.1, Nat.zero_add]
  · simp only [hK]
    rw [hloop.2]

/-- Claim C3 counterexample: POST sync/activities with an empty activities
array is answered with a zero-count success (an empty JS array passes the
truthiness check), not rejected as a validation error. -/
theorem ingestBatch_empty_accepted_counterexample :
    ingestBatch emptyDb 1 none "198.51.100.7" 0 (some []) =
      .ok (emptyDb, 0, 0) := by
  rfl

/-- Claim C3 (amended): an empty activities array is accepted and answered
with a zero-count success (0 of 0, no rows written); only a missing or
non-array activities field is rejected as a validation error. -/
theorem ingestBatch_empty_zero_count_success (db : Db) (userId : Nat)
    (reqDeviceId : Option String) (ip : String) (now : Nat) :
    ingestBatch db userId reqDeviceId ip now (some []) = .ok (db, 0, 0) ∧
    ingestBatch db userId reqDeviceId ip now none =
      .error "Activities array required" := by
  exact ⟨rfl, rfl⟩

/-! ### Theorems -/

/-- The items of the full-sync payload are exactly the delta lists, with the
category join only decorating each row. -/
theorem computeDeltaFull_items (db : Db) (userId : Nat)
    (deviceId : Option String) (ls : Option Nat) (now : Nat) :
    (computeDeltaFull db userId deviceId ls now).1.modules.map
        (fun r => r.module) = moduleDelta db.modules ls ∧
    (computeDeltaFull db userId deviceId ls now).1.mecaAids.map
        (fun r => r.mecaAid) = mecaAidDelta db.mecaAids ls := by
  constructor <;> simp [computeDeltaFull, Function.comp_def]

/-- Claim C1: GET sync/full returns exactly the active items with
updatedAt > since; with since absent every active item whose updatedAt is
after the epoch is returned — the complete active catalog — and the result
coincides with a call at any timestamp earlier than every item's
updatedAt. -/
theorem computeDelta_active_updated_since (db : Db) (T : Nat)
    (hpos : ∀ m ∈ db.modules, 0 < m.updatedAt)
    (hpos2 : ∀ a ∈ db.mecaAids, 0 < a.updatedAt)
    (hT : ∀ m ∈ db.modules, T < m.updatedAt)
    (hT2 : ∀ a ∈ db.mecaAids, T < a.updatedAt) :
    (∀ (userId : Nat) (deviceId : Option String) (ls : Option Nat) (now : Nat),
      (computeDeltaFull db userId deviceId ls now).1.modules.map
          (fun r => r.module) = moduleDelta db.modules ls ∧
      (computeDeltaFull db userId deviceId ls now).1.mecaAids.map
          (fun r => r.mecaAid) = mecaAidDelta db.mecaAids ls) ∧
    (∀ (S : Nat) (m : Module),
      m ∈ moduleDelta db.modules (some S) ↔
        m ∈ db.modules ∧ m.isActive = true ∧ S < m.updatedAt) ∧
    (∀ (S : Nat) (a : MecaAid),
      a ∈ mecaAidDelta db.mecaAids (some S) ↔
        a ∈ db.mecaAids ∧ a.isActive = true ∧ S < a.updatedAt) ∧
    moduleDelta db.modules none = db.modules.filter (fun m => m.isActive) ∧
    mecaAidDelta db.mecaAids none = db.mecaAids.filter (fun a => a.isActive) ∧
    moduleDelta db.modules (some T) = moduleDelta db.modules none ∧
    mecaAidDelta db.mecaAids (some T) = mecaAidDelta db.mecaAids none := by
  refine ⟨fun userId deviceId ls now =>
      computeDeltaFull_items db userId deviceId ls now, ?_, ?_, ?_, ?_, ?_, ?_⟩
  · intro S m
    simp [moduleDelta, sinceDate, List.mem_filter, and_assoc]
  · intro S a
    simp [mecaAidDelta, sinceDate, List.mem_filter, and_assoc]
  · refine List.filter_congr ?_
    intro m hm
    simp [sinceDate, hpos m hm]
  · refine List.filter_congr ?_
    intro a ha
    simp [sinceDate, hpos2 a ha]
  · refine List.filter_congr ?_
    intro m hm
    simp [sinceDate, hpos m hm, hT m hm]
  · refine List.filter_congr ?_
    intro a ha
    simp [sinceDate, hpos2 a ha, hT2 a ha]

/-- Claim C1 witness: on the sample catalog, the absent-since call and a
call at timestamp 2 (earlier than every updatedAt) return the same item
sets. -/
theorem computeDelta_active_updated_since_witness :
    moduleDelta dbSample.modules (some 2) =
      moduleDelta dbSample.modules none ∧
    mecaAidDelta dbSample.mecaAids (some 2) =
      mecaAidDelta dbSample.mecaAids none :=
  ⟨(computeDelta_active_updated_since dbSample 2 (by decide) (by decide)
      (by decide) (by decide)).2.2.2.2.2.1,
   (computeDelta_active_updated_since dbSample 2 (by decide) (by decide)
      (by decide) (by decide)).2.2.2.2.2.2⟩

/-- Claim C7: GET sync/check with since absent always reports updates
available; with since = T it reports hasUpdates exactly when the item sets
GET sync/full would return at T are non-empty — the same predicate, checked
through counts. -/
theorem checkForUpdates_matches_delta (db : Db) (T : Nat) (userId : Nat)
    (deviceId : Option String) (now : Nat) :
    (checkForUpdates db none).hasUpdates = true ∧
    ((checkForUpdates db (some T)).hasUpdates = true ↔
      moduleDelta db.modules (some T) ≠ [] ∨
      mecaAidDelta db.mecaAids (some T) ≠ []) ∧
    ((checkForUpdates db (some T)).hasUpdates = true ↔
      (computeDeltaFull db userId deviceId (some T) now).1.modules ≠ [] ∨
      (computeDeltaFull db userId deviceId (some T) now).1.mecaAids ≠ []) := by
  refine ⟨rfl, ?_, ?_⟩
  · simp [checkForUpdates, List.length_pos]
  · simp [checkForUpdates, computeDeltaFull, List.length_pos]

/-- Claim C8: GET sync/full is an idempotent read: a second call on the
resulting state with the same since value returns the same item sets, and
the only state change of a call is the append of one sync_logs checkpoint —
content, Download Ledger and ActivityEvent stores are untouched. -/
theorem computeDelta_idempotent_read (db : Db) (userId : Nat)
    (deviceId : Option String) (ls : Option Nat) (now now2 : Nat) :
    (computeDeltaFull (computeDeltaFull db userId deviceId ls now).2.1
        userId deviceId ls now2).1.modules =
      (computeDeltaFull db userId deviceId ls now).1.modules ∧
    (computeDeltaFull (computeDeltaFull db userId deviceId ls now).2.1
        userId deviceId ls now2).1.mecaAids =
      (computeDeltaFull db userId deviceId ls now).1.mecaAids ∧
    (computeDeltaFull db userId deviceId ls now).2.1.modules = db.modules ∧
    (computeDeltaFull db userId deviceId ls now).2.1.mecaAids = db.mecaAids ∧
    (computeDeltaFull db userId deviceId ls now).2.1.mecaAidSteps =
      db.mecaAidSteps ∧
    (computeDeltaFull db userId deviceId ls now).2.1.moduleCategories =
      db.moduleCategories ∧
    (computeDeltaFull db userId deviceId ls now).2.1.mecaAidCategories =
      db.mecaAidCategories ∧
    (computeDeltaFull db userId deviceId ls now).2.1.appSettings =
      db.appSettings ∧
    (computeDeltaFull db userId deviceId ls now).2.1.downloadedModules =
      db.downloadedModules ∧
    (computeDeltaFull db userId deviceId ls now).2.1.userActivities =
      db.userActivities ∧
    (computeDeltaFull db userId deviceId ls now).2.1.syncLogs =
      db.syncLogs ++
        [{ userId := userId, deviceId := deviceId, syncType := "full"
           itemsSynced := (moduleDelta db.modules ls).length +
             (mecaAidDelta db.mecaAids ls).length
           lastSyncAt := now }] := by
  exact ⟨rfl, rfl, rfl, rfl, rfl, rfl, rfl, rfl, rfl, rfl, rfl⟩

/-- Claim C4: every row GET sync/downloads returns carries needsUpdate true
exactly when its downloadedVersion is below the joined module's version at
read time, and its currentVersion is that module's version. -/
theorem getDownloadStatus_needsUpdate (db : Db) (userId : Nat)
    (deviceId : Option String) (row : DownloadStatusRow)
    (h : row ∈ getDownloadStatus db userId deviceId) :
    (row.needsUpdate = true ↔
      row.record.downloadedVersion < row.currentVersion) ∧
    ∃ m ∈ db.modules, m.id = row.record.moduleId ∧
      row.currentVersion = m.version := by
  rcases List.mem_filterMap.mp h with ⟨d, hd, hmap⟩
  rcases Option.map_eq_some'.mp hmap with ⟨m, hfind, hrow⟩
  subst hrow
  refine ⟨by simp, ⟨m, List.mem_of_find?_eq_some hfind, ?_, rfl⟩⟩
  have := List.find?_some hfind
  simpa using this

/-- Claim C4 witness: after RecordDownload(7, M, dev, 3) and an update
raising the version to 4, GET sync/downloads reports downloadedVersion 3,
currentVersion 4, needsUpdate true, and the theorem applies to that row. -/
theorem getDownloadStatus_needsUpdate_witness :
    getDownloadStatus dbScenarioUpdated 7 (some "dev") = [rowScenario] ∧
    rowScenario.record.downloadedVersion = 3 ∧
    rowScenario.currentVersion = 4 ∧
    (rowScenario.needsUpdate = true ↔
      rowScenario.record.downloadedVersion < rowScenario.currentVersion) :=
  ⟨by decide, rfl, rfl,
   (getDownloadStatus_needsUpdate dbScenarioUpdated 7 (some "dev")
      rowScenario (by decide)).1⟩

/-- Claim C6 counterexample: a successful meca aid admin update — here a
title change on the sample meca aid stored at version 1 — leaves version
at 1 rather than raising it to 2: the meca_aids UPDATE statement, unlike
the modules one, has no version bump in its SET list, so the claimed
every-ContentItem invariant fails on meca aids. -/
theorem updateMecaAid_version_unchanged_counterexample :
    updateMecaAid [aSample] "A"
        { title := some "Starter v2", categoryId := none, isActive := none }
        200 =
      [applyMecaAidUpdate
        { title := some "Starter v2", categoryId := none, isActive := none }
        200 aSample] ∧
    (applyMecaAidUpdate
        { title := some "Starter v2", categoryId := none, isActive := none }
        200 aSample).title = "Starter v2" ∧
    aSample.version = 1 ∧
    (applyMecaAidUpdate
        { title := some "Starter v2", categoryId := none, isActive := none }
        200 aSample).version = 1 ∧
    (applyMecaAidUpdate
        { title := some "Starter v2", categoryId := none, isActive := none }
        200 aSample).version ≠ aSample.version + 1 := by
  exact ⟨by decide, rfl, rfl, rfl, by decide⟩

/-- Claim C6 (amended): a successful admin update of a module increments
its version by exactly 1 and strictly advances its updatedAt (the update
happening after the previous write), while the meca aid admin update leaves
version exactly as stored; version therefore stays monotone non-decreasing
over every item's lifetime. -/
theorem update_version_behavior (ms : List Module) (uuid : String)
    (u : ModuleUpdate) (now : Nat) (m : Module)
    (hm : m ∈ ms) (huuid : m.uuid = uuid) (hnow : m.updatedAt < now)
    (as : List MecaAid) (uuidA : String) (ua : MecaAidUpdate) (nowA : Nat)
    (a : MecaAid) (ha : a ∈ as) (huuidA : a.uuid = uuidA) :
    applyModuleUpdate u now m ∈ updateModule ms uuid u now ∧
    (applyModuleUpdate u now m).version = m.version + 1 ∧
    m.updatedAt < (applyModuleUpdate u now m).updatedAt ∧
    m.version ≤ (applyModuleUpdate u now m).version ∧
    applyMecaAidUpdate ua nowA a ∈ updateMecaAid as uuidA ua nowA ∧
    (applyMecaAidUpdate ua nowA a).version = a.version ∧
    a.version ≤ (applyMecaAidUpdate ua nowA a).version := by
  refine ⟨?_, rfl, hnow, Nat.le_succ _, ?_, rfl, Nat.le_refl _⟩
  · have hmem := List.mem_map_of_mem
      (fun x => if x.uuid == uuid then applyModuleUpdate u now x else x) hm
    simpa [updateModule, huuid] using hmem
  · have hmem := List.mem_map_of_mem
      (fun x => if x.uuid == uuidA then applyMecaAidUpdate ua nowA x else x) ha
    simpa [updateMecaAid, huuidA] using hmem

/-- Claim C6 witness: the empty admin update at time 200 takes the sample
module from version 3 to version 4 and advances updatedAt from 50, while
the empty meca aid update at time 300 leaves the sample meca aid at
version 1. -/
theorem update_version_behavior_witness :
    applyModuleUpdate emptyModuleUpdate 200 mSample ∈
      updateModule [mSample] "M" emptyModuleUpdate 200 ∧
    (applyModuleUpdate emptyModuleUpdate 200 mSample).version =
      mSample.version + 1 ∧
    mSample.updatedAt <
      (applyModuleUpdate emptyModuleUpdate 200 mSample).updatedAt ∧
    mSample.version ≤
      (applyModuleUpdate emptyModuleUpdate 200 mSample).version ∧
    applyMecaAidUpdate emptyMecaAidUpdate 300 aSample ∈
      updateMecaAid [aSample] "A" emptyMecaAidUpdate 300 ∧
    (applyMecaAidUpdate emptyMecaAidUpdate 300 aSample).version =
      aSample.version ∧
    aSample.version ≤
      (applyMecaAidUpdate emptyMecaAidUpdate 300 aSample).version :=
  update_version_behavior [mSample] "M" emptyModuleUpdate 200 mSample
    (by decide) (by decide) (by decide)
    [aSample] "A" emptyMecaAidUpdate 300 aSample (by decide) (by decide)

/-- Claim C9: GET sync/full records its checkpoint under the raw device id,
null when absent, while GET sync/status looks checkpoints up under the
sentinel string unknown; a caller with no device id therefore still sees no
checkpoint immediately after a successful full sync, even though one more
sync_logs row was written. -/
theorem getStatus_misses_checkpoint_of_absent_device (db : Db)
    (userId : Nat) (ls : Option Nat) (now : Nat)
    (h : getStatus db userId none = none) :
    getStatus (computeDeltaFull db userId none ls now).2.1 userId none =
      none ∧
    (computeDeltaFull db userId none ls now).2.1.syncLogs.length =
      db.syncLogs.length + 1 := by
  constructor
  · show latestSyncLog ((db.syncLogs ++
        ([{ userId := userId, deviceId := none, syncType := "full"
            itemsSynced := (moduleDelta db.modules ls).length +
              (mecaAidDelta db.mecaAids ls).length
            lastSyncAt := now }] : List SyncLog)).filter (fun l : SyncLog =>
        l.userId == userId && l.deviceId == some (ledgerKey none))) = none
    rw [List.filter_append]
    have hnew : List.filter (fun l : SyncLog =>
        l.userId == userId && l.deviceId == some (ledgerKey none))
        ([{ userId := userId, deviceId := none, syncType := "full"
            itemsSynced := (moduleDelta db.modules ls).length +
              (mecaAidDelta db.mecaAids ls).length
            lastSyncAt := now }] : List SyncLog) = [] := by
      simp [ledgerKey]
    rw [hnew, List.append_nil]
    exact h
  · simp [computeDeltaFull]

/-- Rewriting the matching rows of a list in place moves find? to the
rewritten row, when the rewrite does not change who matches. -/
theorem find?_map_ite {α : Type} (K : α → Bool) (patch : α → α)
    (hK : ∀ d, K (patch d) = K d) :
    ∀ (ds : List α) (r0 : α), ds.find? K = some r0 →
      (ds.map (fun d => if K d then patch d else d)).find? K =
        some (patch r0) := by
  intro ds
  induction ds with
  | nil => intro r0 h; simp at h
  | cons d t ih =>
    intro r0 h
    cases hd : K d with
    | true =>
      rw [List.find?_cons_of_pos _ hd] at h
      injection h with h
      subst h
      simp only [List.map_cons, hd, if_true]
      exact List.find?_cons_of_pos _ (by rw [hK]; exact hd)
    | false =>
      rw [List.find?_cons_of_neg _ (by simp [hd])] at h
      simp only [List.map_cons, hd, if_false]
      rw [List.find?_cons_of_neg _ (by simp [hd])]
      exact ih r0 h

/-- Claim C5: the Download Ledger write of POST modules/:uuid/download is an
upsert on the (userId, moduleId, deviceId) key: a fresh key appends the
record, a repeat for the same key overwrites downloadedVersion and
downloadedAt unconditionally for every incoming version, including one lower
than the stored one; every existing key survives the upsert, and no other
core operation removes Download Ledger rows. -/
theorem recordDownload_upsert_lastWriteWins (ds : List DownloadRecord)
    (r : DownloadRecord) :
    (ds.find? (fun d => sameDownloadKey d r.userId r.moduleId r.deviceId) =
        none →
      upsertDownload ds r = ds ++ [r]) ∧
    (∀ r0 : DownloadRecord,
      ds.find? (fun d => sameDownloadKey d r.userId r.moduleId r.deviceId) =
          some r0 →
      (upsertDownload ds r).find?
          (fun d => sameDownloadKey d r.userId r.moduleId r.deviceId) =
        some { r0 with downloadedVersion := r.downloadedVersion
                       downloadedAt := r.downloadedAt }) ∧
    (∀ d0 ∈ ds, ∃ d1 ∈ upsertDownload ds r,
      sameDownloadKey d1 d0.userId d0.moduleId d0.deviceId = true) ∧
    (∀ (db : Db) (userId : Nat) (deviceId : Option String) (ls : Option Nat)
        (now : Nat),
      (computeDeltaFull db userId deviceId ls now).2.1.downloadedModules =
        db.downloadedModules) ∧
    (∀ (db : Db) (uuid : String) (u : ModuleUpdate) (now : Nat),
      (updateModuleDb db uuid u now).downloadedModules =
        db.downloadedModules) ∧
    (∀ (db db2 : Db) (userId : Nat) (reqDeviceId : Option String)
        (ip : String) (now : Nat) (body : Option (List ActivityIn))
        (c t : Nat),
      ingestBatch db userId reqDeviceId ip now body = .ok (db2, c, t) →
      db2.downloadedModules = db.downloadedModules) := by
  refine ⟨?_, ?_, ?_, fun _ _ _ _ _ => rfl, fun _ _ _ _ => rfl, ?_⟩
  · intro h
    have hany : ds.any
        (fun d => sameDownloadKey d r.userId r.moduleId r.deviceId) = false := by
      rw [List.any_eq_false]
      intro d hd
      exact fun hk => by
        have := List.find?_eq_none.mp h d hd
        exact this hk
    simp [upsertDownload, hany]
  · intro r0 h
    have hmem := List.mem_of_find?_eq_some h
    have hp := List.find?_some h
    have hany : ds.any
        (fun d => sameDownloadKey d r.userId r.moduleId r.deviceId) = true := by
      rw [List.any_eq_true]
      exact ⟨r0, hmem, hp⟩
    simp only [upsertDownload, hany, if_true]
    exact find?_map_ite
      (fun d => sameDownloadKey d r.userId r.moduleId r.deviceId)
      (fun d => { d with downloadedVersion := r.downloadedVersion
                         downloadedAt := r.downloadedAt })
      (fun d => rfl) ds r0 h
  · intro d0 hd0
    by_cases hany : ds.any
        (fun d => sameDownloadKey d r.userId r.moduleId r.deviceId) = true
    · refine ⟨if sameDownloadKey d0 r.userId r.moduleId r.deviceId then
          { d0 with downloadedVersion := r.downloadedVersion
                    downloadedAt := r.downloadedAt }
        else d0, ?_, ?_⟩
      · simp only [upsertDownload, hany, if_true]
        exact List.mem_map_of_mem _ hd0
      · split <;> simp [sameDownloadKey]
    · refine ⟨d0, ?_, by simp [sameDownloadKey]⟩
      simp only [upsertDownload, Bool.not_eq_true] at hany ⊢
      rw [hany]
      simp only [Bool.false_eq_true, if_false]
      exact List.mem_append_left _ hd0
  · intro db db2 userId reqDeviceId ip now body c t h
    cases body with
    | none => simp [ingestBatch] at h
    | some acts =>
      simp only [ingestBatch, Except.ok.injEq, Prod.mk.injEq] at h
      rw [← h.1]

/-- Claim C5 witness: with a stored (7, 1, dev) record at version 5, a
repeat download carrying the lower version 3 overwrites the row to
version 3 and timestamp 20. -/
theorem recordDownload_upsert_lastWriteWins_witness :
    (upsertDownload
        [{ userId := 7, moduleId := 1, deviceId := "dev"
           downloadedVersion := 5, downloadedAt := 10 }]
        { userId := 7, moduleId := 1, deviceId := "dev"
          downloadedVersion := 3, downloadedAt := 20 }).find?
      (fun d => sameDownloadKey d 7 1 "dev") =
      some { userId := 7, moduleId := 1, deviceId := "dev"
             downloadedVersion := 3, downloadedAt := 20 } :=
  (recordDownload_upsert_lastWriteWins
      [{ userId := 7, moduleId := 1, deviceId := "dev"
         downloadedVersion := 5, downloadedAt := 10 }]
      { userId := 7, moduleId := 1, deviceId := "dev"
        downloadedVersion := 3, downloadedAt := 20 }).2.1
    { userId := 7, moduleId := 1, deviceId := "dev"
      downloadedVersion := 5, downloadedAt := 10 } (by decide)

/-- The step ordering is transitive. -/
theorem stepLE_trans (a b c : MecaAidStep) (hab : stepLE a b = true)
    (hbc : stepLE b c = true) : stepLE a c = true := by
  simp only [stepLE, Bool.or_eq_true, Bool.and_eq_true, decide_eq_true_eq,
    beq_iff_eq] at hab hbc ⊢
  omega

/-- The step ordering is total. -/
theorem stepLE_total (a b : MecaAidStep) :
    (stepLE a b || stepLE b a) = true := by
  simp only [stepLE, Bool.or_eq_true, Bool.and_eq_true, decide_eq_true_eq,
    beq_iff_eq]
  omega

/-- Claim C10: when the delta carries at least one meca aid, GET sync/full
issues exactly one bulk step query, over exactly the parent id set, and each
returned parent carries exactly the stored steps whose parent id is its own,
ordered by step number. -/
theorem steps_single_bulk_fetch (db : Db) (userId : Nat)
    (deviceId : Option String) (ls : Option Nat) (now : Nat)
    (hne : mecaAidDelta db.mecaAids ls ≠ []) :
    (computeDeltaFull db userId deviceId ls now).2.2.filter
        isStepsBulkQuery =
      [Query.stepsBulk
        ((mecaAidDelta db.mecaAids ls).map (fun ma => ma.id))] ∧
    ∀ row ∈ (computeDeltaFull db userId deviceId ls now).1.mecaAids,
      (∀ s : MecaAidStep,
        s ∈ row.steps ↔ s ∈ db.mecaAidSteps ∧ s.mecaAidId = row.mecaAid.id) ∧
      row.steps.Pairwise (fun s t => s.stepNumber ≤ t.stepNumber) := by
  have hlen : 0 < (mecaAidDelta db.mecaAids ls).length :=
    List.length_pos.mpr hne
  constructor
  · show ([Query.modulesChanged (sinceDate ls),
        Query.mecaAidsChanged (sinceDate ls)] ++
        (if (mecaAidDelta db.mecaAids ls).length > 0 then
          [Query.stepsBulk
            ((mecaAidDelta db.mecaAids ls).map (fun ma => ma.id))]
        else []) ++
        [Query.moduleCategoriesAll, Query.mecaAidCategoriesAll,
         Query.settingsAll, Query.syncLogInsert]).filter isStepsBulkQuery = _
    rw [if_pos hlen]
    simp [isStepsBulkQuery]
  · intro row hrow
    have hrows : (computeDeltaFull db userId deviceId ls now).1.mecaAids =
        (mecaAidDelta db.mecaAids ls).map (fun ma =>
          { mecaAid := ma
            categoryName := categoryName db.mecaAidCategories ma.categoryId
            steps := (fetchStepsBulk db.mecaAidSteps
                ((mecaAidDelta db.mecaAids ls).map (fun x => x.id))).filter
              (fun s => s.mecaAidId == ma.id) }) := by
      show (mecaAidDelta db.mecaAids ls).map (fun ma =>
          ({ mecaAid := ma
             categoryName := categoryName db.mecaAidCategories ma.categoryId
             steps := (if (mecaAidDelta db.mecaAids ls).length > 0 then
                 fetchStepsBulk db.mecaAidSteps
                   ((mecaAidDelta db.mecaAids ls).map (fun x => x.id))
               else []).filter (fun s => s.mecaAidId == ma.id) } :
            MecaAidRow)) = _
      rw [if_pos hlen]
    rw [hrows] at hrow
    rcases List.mem_map.mp hrow with ⟨ma, hma, rfl⟩
    have hsorted : (fetchStepsBulk db.mecaAidSteps
        ((mecaAidDelta db.mecaAids ls).map (fun x => x.id))).Pairwise
        (fun s t => stepLE s t = true) :=
      List.sorted_mergeSort stepLE_trans stepLE_total _
    constructor
    · intro s
      simp only [fetchStepsBulk, List.mem_filter, List.mem_mergeSort]
      constructor
      · rintro ⟨⟨hsdb, _⟩, hbeq⟩
        exact ⟨hsdb, by simpa using hbeq⟩
      · rintro ⟨hsdb, heq⟩
        refine ⟨⟨hsdb, ?_⟩, by simpa using heq⟩
        have hid : ma.id ∈ (mecaAidDelta db.mecaAids ls).map (fun x => x.id) :=
          List.mem_map_of_mem _ hma
        simp only [List.contains, heq]
        exact List.elem_iff.mpr hid
    · have hpair : (List.filter (fun s => s.mecaAidId == ma.id)
          (fetchStepsBulk db.mecaAidSteps
            ((mecaAidDelta db.mecaAids ls).map (fun x => x.id)))).Pairwise
          (fun s t => stepLE s t = true) :=
        hsorted.sublist (List.filter_sublist _)
      refine List.Pairwise.imp_of_mem ?_ hpair
      intro s t hs ht hr
      have hs2 : s.mecaAidId = ma.id := by
        simpa using (List.mem_filter.mp hs).2
      have ht2 : t.mecaAidId = ma.id := by
        simpa using (List.mem_filter.mp ht).2
      simp only [stepLE, Bool.or_eq_true, Bool.and_eq_true,
        decide_eq_true_eq, beq_iff_eq, hs2, ht2] at hr
      omega

/-- Claim C10 witness: on a catalog with one changed meca aid with two
steps, the full-sync trace contains exactly one bulk step query, over the
parent id set. -/
theorem steps_single_bulk_fetch_witness :
    (computeDeltaFull dbStepsSample 7 none none 0).2.2.filter
        isStepsBulkQuery =
      [Query.stepsBulk
        ((mecaAidDelta dbStepsSample.mecaAids none).map (fun ma => ma.id))] :=
  (steps_single_bulk_fetch dbStepsSample 7 none none 0 (by decide)).1

/-- Claim C9 witness: on the sample database, whose checkpoint log is
empty, a full sync by user 7 with no device id still leaves GET sync/status
answering with no checkpoint, though a checkpoint row was appended. -/
theorem getStatus_misses_checkpoint_of_absent_device_witness :
    getStatus (computeDeltaFull dbSample 7 none none 0).2.1 7 none = none ∧
    (computeDeltaFull dbSample 7 none none 0).2.1.syncLogs.length =
      dbSample.syncLogs.length + 1 :=
  getStatus_misses_checkpoint_of_absent_device dbSample 7 none 0 (by decide)

end MechanicSync
